import Mathlib

/-!
Verification of the Gateway service (src/services/gateway/main.py):
a shallow embedding of its credential verification and reverse-proxy
core, followed by theorems about the embedded definitions.

Conventions of the embedding:
* Python strings are Lean `String`s; the Python primitives used by the
  gateway (`str.lower`, `str.startswith`, `in` substring tests,
  `str.replace`) are modelled by executable functions below.
* Python `dict`s built from header items are association lists with
  insertion-order semantics: a dict comprehension is `dictOfItems`,
  `d[k] = v` is `dictSet` (update in place if the key exists, append
  otherwise), `d.get(k, default)` is `dictGetD`.
* External collaborators (the PyJWKClient plus `jwt.decode`, and the
  Google identity-token fetch) are oracles carried in the configuration:
  their outcomes are inputs of the model, their internals are not.
-/

namespace GatewaySpec

/-- ASCII lowercasing of one character, as `str.lower` acts on the
ASCII header names the gateway compares. -/
def asciiLower (c : Char) : Char :=
  if 'A' ≤ c ∧ c ≤ 'Z' then Char.ofNat (c.toNat + 32) else c

/-- Models Python `s.lower()` on the ASCII strings the gateway handles. -/
def pyLower (s : String) : String :=
  ⟨s.data.map asciiLower⟩

/-- Models Python `s.startswith(pre)`. -/
def pyStartsWith (s pre : String) : Bool :=
  pre.data.isPrefixOf s.data

/-- Substring scan: does `pat` occur contiguously in `s`? -/
def containsSub (pat : List Char) : List Char → Bool
  | [] => pat.isEmpty
  | c :: rest => pat.isPrefixOf (c :: rest) || containsSub pat rest

/-- Models Python `pat in s` (substring containment). -/
def pyContains (s pat : String) : Bool :=
  containsSub pat.data s.data

/-- One left-to-right scan of CPython `str.replace` for a non-empty
pattern, with explicit fuel (one unit per consumed character, so
`s.length` fuel always suffices): at each position, if the pattern
matches, emit the replacement and resume after the match; otherwise
keep the character. -/
def replList (fuel : Nat) (pat rep s : List Char) : List Char :=
  match fuel, s with
  | 0, s => s
  | _ + 1, [] => []
  | fuel + 1, c :: rest =>
    if !pat.isEmpty && pat.isPrefixOf (c :: rest) then
      rep ++ replList fuel pat rep ((c :: rest).drop pat.length)
    else
      c :: replList fuel pat rep rest

/-- Models Python `s.replace(pat, rep)` for a non-empty `pat`
(the gateway only calls it with the literal pattern `"Bearer "`). -/
def pyReplace (s pat rep : String) : String :=
  ⟨replList s.data.length pat.data rep.data s.data⟩

/-- Python dict update `d[k] = v` on an insertion-ordered association
list: overwrite in place when the key is present, append otherwise. -/
def dictSet (d : List (String × String)) (k v : String) : List (String × String) :=
  if d.any (fun p => p.1 == k) then
    d.map (fun p => if p.1 = k then (k, v) else p)
  else
    d ++ [(k, v)]

/-- Python dict comprehension over a sequence of key/value items
(later items overwrite earlier ones, first position wins). -/
def dictOfItems (items : List (String × String)) : List (String × String) :=
  items.foldl (fun d p => dictSet d p.1 p.2) []

/-- Python `d.get(k, default)`. -/
def dictGetD (d : List (String × String)) (k dflt : String) : String :=
  match d.find? (fun p => p.1 == k) with
  | some p => p.2
  | none => dflt

/-- Case-insensitive header extraction, as FastAPI resolves
`Header(None)` parameters and httpx response-header lookups. -/
def headerLookup (headers : List (String × String)) (name : String) : Option String :=
  (headers.find? (fun p => pyLower p.1 == name)).map Prod.snd

/-- An HTTPException raised by the gateway: status code and detail
string (main.py raises these with statuses 401 and 503). -/
structure AuthError where
  status : Nat
  detail : String
deriving DecidableEq, Repr

/-- A JWT payload / identity mapping, as the dict returned by
`verify_token`; claim values relevant to the gateway are strings. -/
abbrev Claims := List (String × String)

/-- An exception escaping the `try` block of real verification
(main.py lines 109-117): either the JWKS key-retrieval fetch failed
(network error or timeout inside `get_signing_key_from_jwt`) or the
token itself failed verification in `jwt.decode` (bad signature, wrong
audience, expired claims). The Python code catches both uniformly as
`Exception`; `message` is `str(e)`. -/
inductive PyJwtError where
  | fetchFailure (msg : String)
  | verifyFailure (msg : String)
deriving DecidableEq, Repr

/-- Python `str(e)` for a caught exception. -/
def PyJwtError.message : PyJwtError → String
  | .fetchFailure msg => msg
  | .verifyFailure msg => msg

/-- The gateway's environment-sourced configuration (main.py lines
17-29) together with its two external oracles:
* `jwksClient`: `some f` when the PyJWKClient was initialized, where
  `f token` is the combined outcome of `get_signing_key_from_jwt` plus
  `jwt.decode` on that exact token string;
* `getAuthToken`: the result of `get_auth_token(url)` (main.py lines
  32-44) — `none` when not on Cloud Run or when the Google identity
  token fetch fails, `some token` otherwise. -/
structure GatewayConfig where
  projectId : String
  environment : String
  apiServiceUrl : String
  aiServiceUrl : String
  clerkJwksUrl : String
  testBypassToken : String
  jwksClient : Option (String → Except PyJwtError Claims)
  getAuthToken : String → Option String

/-- Module-initialization of `jwks_client` (main.py lines 63-69): only
attempted when the environment is not "development"; `attempt` is
`some client` when `PyJWKClient(CLERK_JWKS_URL)` succeeds and `none`
when it raises (the warning path). -/
def initJwksClient (environment : String)
    (attempt : Option (String → Except PyJwtError Claims)) :
    Option (String → Except PyJwtError Claims) :=
  if environment ≠ "development" then attempt else none

/-- The fixed administrative identity returned for the bypass token
(main.py lines 92-97). -/
def testAdminUser : Claims :=
  [("user_id", "test_admin_123"), ("email", "admin@test.example.com"),
   ("name", "Test Admin"), ("role", "admin")]

/-- The fixed development identity (main.py line 101). -/
def devUser : Claims :=
  [("user_id", "dev_user"), ("email", "dev@example.com")]

/-- The token string submitted to signature verification (main.py line
110): `authorization.replace("Bearer ", "")` — a global replacement of
every occurrence, not a prefix strip. -/
def bearerToken (authorization : String) : String :=
  pyReplace authorization "Bearer " ""

/-- Model of `verify_token` (main.py lines 72-117). The checks appear in source
order: missing header, malformed scheme, bypass token, permissive
development mode, unconfigured JWKS client, then real verification via
the JWKS oracle with any raised exception mapped to a 401. The first
check, `if not authorization:`, is Python truthiness on an
Optional[str]: it fires both when the header is absent (None) and when
it is present but empty (""), returning the missing-header 401 in both
cases. -/
def verifyToken (cfg : GatewayConfig) (authorization : Option String) :
    Except AuthError Claims :=
  match authorization with
  | none => .error ⟨401, "Authorization header missing"⟩
  | some auth =>
    if auth = "" then
      .error ⟨401, "Authorization header missing"⟩
    else if ¬ pyStartsWith auth "Bearer " then
      .error ⟨401, "Invalid authorization format. Expected: Bearer <token>"⟩
    else if cfg.testBypassToken ≠ "" ∧ auth = "Bearer " ++ cfg.testBypassToken then
      .ok testAdminUser
    else if cfg.environment = "development" ∧ cfg.jwksClient.isNone then
      .ok devUser
    else
      match cfg.jwksClient with
      | none => .error ⟨503, "Authentication service not configured"⟩
      | some decodeJwt =>
        match decodeJwt (bearerToken auth) with
        | .ok payload => .ok payload
        | .error e => .error ⟨401, "Invalid token: " ++ e.message⟩

/-- An httpx timeout value: the total timeout in seconds and the
explicitly passed connect timeout, when one is given (the source only
uses the integral values 30.0, 60.0 and 10.0). -/
structure HttpxTimeout where
  total : Nat
  connect : Option Nat
deriving DecidableEq, Repr

/-- Timeout selection of `proxy_to_api` (main.py line 160):
`httpx.Timeout(60.0, connect=10.0) if "file" in path else httpx.Timeout(30.0)`. -/
def apiTimeout (path : String) : HttpxTimeout :=
  if pyContains path "file" then ⟨60, some 10⟩ else ⟨30, none⟩

/-- Timeout of `proxy_to_ai` (main.py line 224): a plain `timeout=30.0`. -/
def aiTimeout : HttpxTimeout := ⟨30, none⟩

/-- An inbound HTTP request as the two proxy handlers see it: the
captured `{path}` suffix, the query string, the header items and the
raw body (opaque bytes modelled as a string). -/
structure InboundRequest where
  method : String
  path : String
  query : String
  headers : List (String × String)
  body : String
deriving DecidableEq, Repr

/-- The outbound request handed to `client.request` by a proxy handler,
together with the timeout its `AsyncClient` was built with. -/
structure OutboundRequest where
  method : String
  url : String
  headers : List (String × String)
  body : Option String
  timeout : HttpxTimeout
deriving DecidableEq, Repr

/-- The condition of the inbound-header dict comprehension (main.py
lines 163-167 and 226-230): `key.lower() not in ["host", "authorization"]`. -/
def keepReqHeader (p : String × String) : Bool :=
  !(pyLower p.1 == "host" || pyLower p.1 == "authorization")

/-- Outbound header construction of `proxy_to_api` (main.py lines
162-174): copy inbound items dropping `host` and `authorization`
case-insensitively, set `X-User-Id` and `X-User-Email` from the
verified identity, and set `Authorization: Bearer <token>` when the
Cloud Run identity-token fetch returned one. -/
def apiOutboundHeaders (user : Claims) (inbound : List (String × String))
    (authToken : Option String) : List (String × String) :=
  let headers := dictOfItems (inbound.filter keepReqHeader)
  let headers := dictSet headers "X-User-Id" (dictGetD user "user_id" "")
  let headers := dictSet headers "X-User-Email" (dictGetD user "email" "")
  match authToken with
  | some t => dictSet headers "Authorization" ("Bearer " ++ t)
  | none => headers

/-- Outbound header construction of `proxy_to_ai` (main.py lines
225-236): as for the API route but without `X-User-Email`. -/
def aiOutboundHeaders (user : Claims) (inbound : List (String × String))
    (authToken : Option String) : List (String × String) :=
  let headers := dictOfItems (inbound.filter keepReqHeader)
  let headers := dictSet headers "X-User-Id" (dictGetD user "user_id" "")
  match authToken with
  | some t => dictSet headers "Authorization" ("Bearer " ++ t)
  | none => headers

/-- URL construction shared verbatim by both handlers (main.py lines
177-180 and 239-242). -/
def buildProxyUrl (baseUrl path query : String) : String :=
  let url := baseUrl ++ "/" ++ path
  if query ≠ "" then url ++ "?" ++ query else url

/-- Body selection shared verbatim by both handlers (main.py lines
187-189 and 249-251): forward the raw body only for POST/PUT/PATCH. -/
def proxyBody (method body : String) : Option String :=
  if method ∈ (["POST", "PUT", "PATCH"] : List String) then some body else none

/-- Model of `proxy_to_api` (main.py lines 154-190) up to the upstream call: a
401/503 `AuthError` from `verify_token` (raised by the dependency
before any forwarding), or the outbound request handed to httpx. -/
def proxyToApiRequest (cfg : GatewayConfig) (req : InboundRequest) :
    Except AuthError OutboundRequest :=
  match verifyToken cfg (headerLookup req.headers "authorization") with
  | .error e => .error e
  | .ok user =>
    .ok { method := req.method
          url := buildProxyUrl cfg.apiServiceUrl req.path req.query
          headers := apiOutboundHeaders user req.headers (cfg.getAuthToken cfg.apiServiceUrl)
          body := proxyBody req.method req.body
          timeout := apiTimeout req.path }

/-- Model of `proxy_to_ai` (main.py lines 219-252) up to the upstream call. -/
def proxyToAiRequest (cfg : GatewayConfig) (req : InboundRequest) :
    Except AuthError OutboundRequest :=
  match verifyToken cfg (headerLookup req.headers "authorization") with
  | .error e => .error e
  | .ok user =>
    .ok { method := req.method
          url := buildProxyUrl cfg.aiServiceUrl req.path req.query
          headers := aiOutboundHeaders user req.headers (cfg.getAuthToken cfg.aiServiceUrl)
          body := proxyBody req.method req.body
          timeout := aiTimeout }

/-- The upstream service's HTTP response as httpx returns it: status
code, header items (httpx normalizes header names to lowercase, but
the embedding keeps them arbitrary since the code lowercases again),
and raw content. -/
structure UpstreamResponse where
  status : Nat
  headers : List (String × String)
  content : String
deriving DecidableEq, Repr

/-- The `Response(...)` value a proxy handler returns to the caller:
status, body content, the explicit header dict passed in, and the
`media_type` argument. -/
structure RelayedResponse where
  status : Nat
  headers : List (String × String)
  content : String
  mediaType : String
deriving DecidableEq, Repr

/-- The hop-by-hop / transport-framing header filter shared verbatim by
both handlers (main.py lines 196-200 and 255-259): the dict of upstream
header items whose lowercased name is none of `content-encoding`,
`content-length`, `transfer-encoding`, `connection`. -/
def keepRespHeader (p : String × String) : Bool :=
  !(pyLower p.1 == "content-encoding" || pyLower p.1 == "content-length" ||
    pyLower p.1 == "transfer-encoding" || pyLower p.1 == "connection")

def stripRespHeaders (headers : List (String × String)) : List (String × String) :=
  dictOfItems (headers.filter keepRespHeader)

/-- Model of `response.headers.get(name, default)` on an httpx response:
case-insensitive lookup with a default. -/
def respHeaderGet (headers : List (String × String)) (name dflt : String) : String :=
  match headerLookup headers name with
  | some v => v
  | none => dflt

/-- Response relay of `proxy_to_api` (main.py lines 192-216): copy
status and content, forward the stripped header dict, and pass
`media_type="application/json"` when the upstream content type contains
`application/json`, the upstream content type otherwise. -/
def proxyToApiResponse (resp : UpstreamResponse) : RelayedResponse :=
  let contentType := respHeaderGet resp.headers "content-type" ""
  let fwd := stripRespHeaders resp.headers
  if pyContains contentType "application/json" then
    { status := resp.status, headers := fwd, content := resp.content
      mediaType := "application/json" }
  else
    { status := resp.status, headers := fwd, content := resp.content
      mediaType := contentType }

/-- Response relay of `proxy_to_ai` (main.py lines 254-267): copy
status and content, forward the stripped header dict, and pass the
upstream content type (defaulting to `application/json`) as media type. -/
def proxyToAiResponse (resp : UpstreamResponse) : RelayedResponse :=
  { status := resp.status
    headers := stripRespHeaders resp.headers
    content := resp.content
    mediaType := respHeaderGet resp.headers "content-type" "application/json" }

/-- The JSON object returned by `GET /debug/env` (main.py lines 141-151). -/
structure DebugEnvResponse where
  environment : String
  testBypassTokenIsSet : Bool
  testBypassTokenLength : Nat
  clerkJwksUrlIsSet : Bool
  jwksIsSet : Bool
  projectId : String
deriving DecidableEq, Repr

/-- Model of `debug_env` (main.py lines 141-151): reports the environment name,
`bool(TEST_BYPASS_TOKEN)`, `len(TEST_BYPASS_TOKEN) if TEST_BYPASS_TOKEN
else 0`, `bool(CLERK_JWKS_URL)`, `bool(jwks_client)` and the project id. -/
def debugEnv (cfg : GatewayConfig) : DebugEnvResponse :=
  { environment := cfg.environment
    testBypassTokenIsSet := cfg.testBypassToken ≠ ""
    testBypassTokenLength := if cfg.testBypassToken ≠ "" then cfg.testBypassToken.length else 0
    clerkJwksUrlIsSet := cfg.clerkJwksUrl ≠ ""
    jwksIsSet := cfg.jwksClient.isSome
    projectId := cfg.projectId }

/-- The `/debug/env` route handler: it takes no authentication
dependency, ignores the request entirely, and FastAPI returns the dict
with status 200. -/
def debugEnvHandler (cfg : GatewayConfig) (_req : InboundRequest) :
    Nat × DebugEnvResponse :=
  (200, debugEnv cfg)

/-! Concrete sample values used by witnesses -/

/-- A sample JWKS oracle: one accepted token, everything else rejected
by `jwt.decode`. -/
def sampleJwks : String → Except PyJwtError Claims := fun t =>
  if t = "validtoken" then .ok [("user_id", "real_user"), ("email", "real@example.com")]
  else .error (.verifyFailure "Signature verification failed")

/-- A production-like configuration: JWKS client initialized, bypass
token configured, not on Cloud Run. -/
def prodConfig : GatewayConfig :=
  { projectId := "demo-project"
    environment := "production"
    apiServiceUrl := "http://api.internal"
    aiServiceUrl := "http://ai.internal"
    clerkJwksUrl := "https://jwks.example.com/keys.json"
    testBypassToken := "sekret"
    jwksClient := some sampleJwks
    getAuthToken := fun _ => none }

/-- A development-mode configuration: `jwks_client` left uninitialized
by the module initializer. -/
def devConfig : GatewayConfig :=
  { projectId := "demo-project"
    environment := "development"
    apiServiceUrl := "http://localhost:8081"
    aiServiceUrl := "http://localhost:8082"
    clerkJwksUrl := "https://jwks.example.com/keys.json"
    testBypassToken := "sekret"
    jwksClient := initJwksClient "development" (some sampleJwks)
    getAuthToken := fun _ => none }

/-- A sample inbound request carrying no Authorization header. -/
def reqNoAuth : InboundRequest :=
  { method := "GET", path := "users/me", query := "", headers := [("host", "gw.example.com")],
    body := "" }

/-- A sample inbound request whose Authorization header is present but
empty — falsy in Python, so `if not authorization:` fires. -/
def reqEmptyAuth : InboundRequest :=
  { method := "GET", path := "users/me", query := "",
    headers := [("host", "gw.example.com"), ("authorization", "")], body := "" }

/-- A sample inbound request with a malformed Authorization header. -/
def reqMalformed : InboundRequest :=
  { method := "GET", path := "users/me", query := "",
    headers := [("host", "gw.example.com"), ("authorization", "Token abc")], body := "" }

/-- A sample inbound request presenting the bypass token. -/
def reqBypass : InboundRequest :=
  { method := "POST", path := "items", query := "limit=5",
    headers := [("host", "gw.example.com"), ("authorization", "Bearer sekret"),
      ("content-type", "application/json")],
    body := "hello" }

/-- Projects a successful phase-1 result, with a dummy for the error
case; used by witnesses to name concrete outbound requests. -/
def outOrDefault (r : Except AuthError OutboundRequest) : OutboundRequest :=
  match r with
  | .ok o => o
  | .error _ => { method := "", url := "", headers := [], body := none, timeout := ⟨0, none⟩ }

/-- Projects the timeout of a successful phase-1 result. -/
def timeoutOf (r : Except AuthError OutboundRequest) : Option HttpxTimeout :=
  match r with
  | .ok o => some o.timeout
  | .error _ => none

/-- A GET request authenticated via the bypass token. -/
def reqGetBypass : InboundRequest :=
  { method := "GET", path := "items", query := "",
    headers := [("authorization", "Bearer sekret")], body := "ignored" }

/-- A file-path request on the AI route. -/
def reqFileAi : InboundRequest :=
  { method := "GET", path := "files/report.pdf", query := "",
    headers := [("authorization", "Bearer sekret")], body := "" }

/-- A file-path request on the API route. -/
def reqFileApi : InboundRequest :=
  { method := "POST", path := "files/upload", query := "",
    headers := [("authorization", "Bearer sekret")], body := "data" }

/-- A production configuration with the bypass token disabled. -/
def prodConfigNoBypass : GatewayConfig :=
  { prodConfig with testBypassToken := "" }

/-- A JWKS oracle whose key retrieval always fails with a network
error escaping `get_signing_key_from_jwt`. -/
def fetchFailJwks : String → Except PyJwtError Claims := fun _ =>
  .error (.fetchFailure "Connection timed out")

/-- A production configuration whose JWKS fetches fail. -/
def fetchFailConfig : GatewayConfig :=
  { prodConfig with testBypassToken := "", jwksClient := some fetchFailJwks }

/-- Projects the HTTP status of a verification failure. -/
def errStatus (r : Except AuthError Claims) : Option Nat :=
  match r with
  | .error e => some e.status
  | .ok _ => none

/-- Projects the detail string of a verification failure. -/
def errDetail (r : Except AuthError Claims) : Option String :=
  match r with
  | .error e => some e.detail
  | .ok _ => none

/-- An upstream response carrying framing headers that must be
stripped. -/
def sampleResp : UpstreamResponse :=
  { status := 206
    headers := [("content-type", "application/json; charset=utf-8"),
      ("content-encoding", "gzip"), ("x-request-id", "abc"),
      ("content-length", "42"), ("connection", "keep-alive")]
    content := "payload" }

/-- A verified identity used by the C1 witness. -/
def sampleUser : Claims := [("user_id", "alice123"), ("email", "alice@example.com")]

/-- Inbound headers used by the C1 witness, carrying the caller's
credential and a Host header. -/
def sampleInbound : List (String × String) :=
  [("host", "gw.example.com"), ("authorization", "Bearer original-secret"),
   ("content-type", "application/json"), ("accept", "text/html")]

/-! Association-list dictionary lemmas -/

theorem mem_dictSet {d : List (String × String)} {k v : String} {p : String × String}
    (hp : p ∈ dictSet d k v) : p = (k, v) ∨ (p ∈ d ∧ p.1 ≠ k) := by
  unfold dictSet at hp
  by_cases h : d.any (fun p => p.1 == k) = true
  · rw [if_pos h] at hp
    obtain ⟨a, ha, hfa⟩ := List.mem_map.mp hp
    by_cases hak : a.1 = k
    · left
      rw [if_pos hak] at hfa
      exact hfa.symm
    · right
      rw [if_neg hak] at hfa
      exact hfa ▸ ⟨ha, hak⟩
  · rw [if_neg h] at hp
    rcases List.mem_append.mp hp with hd | hone
    · right
      refine ⟨hd, fun hpk => h ?_⟩
      exact List.any_eq_true.mpr ⟨p, hd, by simp [hpk]⟩
    · left
      simpa using hone

theorem mem_foldl_dictSet {l : List (String × String)} :
    ∀ {d p}, p ∈ List.foldl (fun d q => dictSet d q.1 q.2) d l → p ∈ d ∨ p ∈ l := by
  induction l with
  | nil => intro d p hp; exact Or.inl hp
  | cons a l ih =>
    intro d p hp
    rcases ih hp with h | h
    · rcases mem_dictSet h with h | h
      · right; rw [h]; exact List.mem_cons_self a l
      · left; exact h.1
    · right; exact List.mem_cons_of_mem _ h

theorem mem_dictOfItems {l : List (String × String)} {p : String × String}
    (hp : p ∈ dictOfItems l) : p ∈ l := by
  rcases mem_foldl_dictSet hp with h | h
  · cases h
  · exact h

theorem lookup_map_set {k v : String} :
    ∀ {d : List (String × String)}, d.any (fun p => p.1 == k) = true →
      List.lookup k (d.map (fun p => if p.1 = k then (k, v) else p)) = some v := by
  intro d
  induction d with
  | nil => intro h; cases h
  | cons a d ih =>
    intro h
    by_cases hak : a.1 = k
    · simp only [List.map_cons, if_pos hak, List.lookup_cons_self]
    · have ha' : (a.1 == k) = false := beq_eq_false_iff_ne.mpr hak
      have htail : d.any (fun p => p.1 == k) = true := by
        simpa [List.any_cons, ha'] using h
      have hka : (k == a.1) = false :=
        beq_eq_false_iff_ne.mpr (fun hk => hak hk.symm)
      rw [List.map_cons, if_neg hak, List.lookup_cons, hka]
      exact ih htail

theorem lookup_none_of_not_any {k : String} :
    ∀ {d : List (String × String)}, d.any (fun p => p.1 == k) = false →
      List.lookup k d = none := by
  intro d
  induction d with
  | nil => intro _; rfl
  | cons a d ih =>
    intro h
    simp only [List.any_cons, Bool.or_eq_false_iff] at h
    have : (k == a.1) = false := by
      rcases h with ⟨h1, _⟩
      exact beq_eq_false_iff_ne.mpr fun hk => (beq_eq_false_iff_ne.mp h1) hk.symm
    simp only [List.lookup, this]
    exact ih h.2

theorem lookup_dictSet_self {d : List (String × String)} {k v : String} :
    List.lookup k (dictSet d k v) = some v := by
  unfold dictSet
  by_cases h : d.any (fun p => p.1 == k) = true
  · rw [if_pos h]; exact lookup_map_set h
  · rw [if_neg h, List.lookup_append,
      lookup_none_of_not_any (Bool.of_not_eq_true h)]
    simp [List.lookup]

theorem lookup_dictSet_ne {d : List (String × String)} {k₀ v : String} (k : String)
    (hne : k ≠ k₀) : List.lookup k (dictSet d k₀ v) = List.lookup k d := by
  unfold dictSet
  by_cases h : d.any (fun p => p.1 == k₀) = true
  · rw [if_pos h]
    clear h
    induction d with
    | nil => rfl
    | cons a d ih =>
      by_cases hak : a.1 = k₀
      · have hkk : (k == k₀) = false := beq_eq_false_iff_ne.mpr hne
        have hka : (k == a.1) = false := by rw [hak]; exact hkk
        rw [List.map_cons, if_pos hak, List.lookup_cons, List.lookup_cons, hkk, hka]
        exact ih
      · rw [List.map_cons, if_neg hak, List.lookup_cons, List.lookup_cons]
        cases hb : k == a.1
        · exact ih
        · rfl
  · rw [if_neg h, List.lookup_append]
    have : List.lookup k [(k₀, v)] = none := by
      simp [List.lookup, beq_eq_false_iff_ne.mpr hne]
    rw [this, Option.or_none]

theorem filter_map_set {k v : String} (q : String → Bool) :
    ∀ d : List (String × String),
      (d.map (fun p => if p.1 = k then (k, v) else p)).filter (fun p => q p.1)
        = (d.filter (fun p => q p.1)).map (fun p => if p.1 = k then (k, v) else p) := by
  intro d
  induction d with
  | nil => rfl
  | cons a d ih =>
    by_cases hak : a.1 = k
    · by_cases hq : q k = true
      · simp [List.filter_cons, if_pos hak, hq, hak, ih]
      · have hq' : q k = false := Bool.of_not_eq_true hq
        simp [List.filter_cons, if_pos hak, hq', hak, ih]
    · by_cases hq : q a.1 = true
      · simp [List.filter_cons, if_neg hak, hq, ih, hak]
      · have hq' : q a.1 = false := Bool.of_not_eq_true hq
        simp [List.filter_cons, if_neg hak, hq', ih]

theorem filter_dictSet (q : String → Bool) (d : List (String × String)) (k v : String) :
    (dictSet d k v).filter (fun p => q p.1)
      = if q k then dictSet (d.filter (fun p => q p.1)) k v
        else d.filter (fun p => q p.1) := by
  unfold dictSet
  by_cases hany : d.any (fun p => p.1 == k) = true
  · rw [if_pos hany, filter_map_set]
    by_cases hq : q k = true
    · obtain ⟨a, ha, hak⟩ := List.any_eq_true.mp hany
      have hak' : a.1 = k := beq_iff_eq.mp hak
      have hany' : (d.filter (fun p => q p.1)).any (fun p => p.1 == k) = true := by
        refine List.any_eq_true.mpr ⟨a, List.mem_filter.mpr ⟨ha, ?_⟩, hak⟩
        rw [hak']; exact hq
      rw [if_pos hq, if_pos hany']
    · have hq' : q k = false := Bool.of_not_eq_true hq
      rw [hq', if_neg (by simp)]
      have hfix : ∀ a ∈ d.filter (fun p => q p.1),
          (fun p => if p.1 = k then (k, v) else p) a = id a := by
        intro a ha
        have hmemq := (List.mem_filter.mp ha).2
        have hak : a.1 ≠ k := fun hk => by
          rw [hk, hq'] at hmemq; cases hmemq
        simp [if_neg hak]
      rw [List.map_congr_left hfix, List.map_id]
  · rw [if_neg hany, List.filter_append, List.filter_cons, List.filter_nil]
    have hanyf : ¬ (d.filter (fun p => q p.1)).any (fun p => p.1 == k) = true := by
      intro hf
      obtain ⟨a, ha, hak⟩ := List.any_eq_true.mp hf
      exact hany (List.any_eq_true.mpr ⟨a, (List.mem_filter.mp ha).1, hak⟩)
    by_cases hq : q k = true
    · rw [if_pos hq, if_neg hanyf]
      simp [hq]
    · have hq' : q k = false := Bool.of_not_eq_true hq
      simp [hq']

theorem foldl_dictSet_filter (q : String → Bool) :
    ∀ (l d : List (String × String)),
      (List.foldl (fun d p => dictSet d p.1 p.2) d l).filter (fun p => q p.1)
        = List.foldl (fun d p => dictSet d p.1 p.2)
            (d.filter (fun p => q p.1)) (l.filter (fun p => q p.1)) := by
  intro l
  induction l with
  | nil => intro d; rfl
  | cons a l ih =>
    intro d
    simp only [List.foldl_cons, List.filter_cons]
    rw [ih, filter_dictSet]
    by_cases hq : q a.1 = true
    · simp [hq]
    · have hq' : q a.1 = false := Bool.of_not_eq_true hq
      simp [hq']

theorem dictOfItems_filter (q : String → Bool) (l : List (String × String)) :
    dictOfItems (l.filter (fun p => q p.1))
      = (dictOfItems l).filter (fun p => q p.1) := by
  unfold dictOfItems
  rw [foldl_dictSet_filter q l []]
  rfl

theorem lookup_filter (q : String → Bool) {name : String} (hq : q name = true) :
    ∀ l : List (String × String),
      List.lookup name (l.filter (fun p => q p.1)) = List.lookup name l := by
  intro l
  induction l with
  | nil => rfl
  | cons a l ih =>
    by_cases ha : q a.1 = true
    · rw [List.filter_cons, if_pos (by simpa using ha), List.lookup_cons, List.lookup_cons, ih]
    · have ha' : q a.1 = false := Bool.of_not_eq_true ha
      have hna : (name == a.1) = false := by
        refine beq_eq_false_iff_ne.mpr fun he => ?_
        rw [← he] at ha'
        rw [hq] at ha'
        cases ha'
      rw [List.filter_cons, if_neg (by simp [ha']), List.lookup_cons, hna, ih]

/-! Lemmas on the `str.replace` and substring models -/

theorem replList_length_le :
    ∀ (fuel : Nat) (pat s : List Char), (replList fuel pat [] s).length ≤ s.length := by
  intro fuel
  induction fuel with
  | zero => intro pat s; simp [replList]
  | succ fuel ih =>
    intro pat s
    match s with
    | [] => simp [replList]
    | c :: rest =>
      rw [replList]
      by_cases h : (!pat.isEmpty && pat.isPrefixOf (c :: rest)) = true
      · rw [if_pos h, List.nil_append]
        calc (replList fuel pat [] ((c :: rest).drop pat.length)).length
            ≤ ((c :: rest).drop pat.length).length := ih pat _
          _ ≤ (c :: rest).length := by
              rw [List.length_drop]; omega
      · rw [if_neg h, List.length_cons, List.length_cons]
        exact Nat.succ_le_succ (ih pat rest)

theorem replList_no_occurrence {pat rep : List Char} :
    ∀ (fuel : Nat) (s : List Char), ¬ (pat <:+: s) → replList fuel pat rep s = s := by
  intro fuel
  induction fuel with
  | zero => intro s _; simp [replList]
  | succ fuel ih =>
    intro s hinf
    match s with
    | [] => rfl
    | c :: rest =>
      have hpre : pat.isPrefixOf (c :: rest) = false := by
        cases hb : pat.isPrefixOf (c :: rest)
        · rfl
        · exact absurd (List.isPrefixOf_iff_prefix.mp hb).isInfix hinf
      rw [replList, if_neg (by simp [hpre])]
      rw [ih rest (fun h => hinf (List.infix_cons h))]

theorem replList_append_left {pat rep : List Char} (hpat : pat ≠ []) :
    ∀ (fuel : Nat) (t : List Char),
      replList (fuel + 1) pat rep (pat ++ t) = rep ++ replList fuel pat rep t := by
  intro fuel t
  cases pat with
  | nil => exact absurd rfl hpat
  | cons p pr =>
    have h1 : (p :: pr).isPrefixOf (p :: (pr ++ t)) = true := by
      rw [← List.cons_append]
      exact List.isPrefixOf_iff_prefix.mpr (List.prefix_append _ _)
    rw [List.cons_append, replList, if_pos (by simp [h1]),
      ← List.cons_append, List.drop_left]

theorem replList_length_lt {pat : List Char} (hpat : pat ≠ []) :
    ∀ (fuel : Nat) (s : List Char), pat <:+: s → s.length ≤ fuel →
      (replList fuel pat [] s).length < s.length := by
  intro fuel
  induction fuel with
  | zero =>
    intro s hinf hlen
    rw [Nat.le_zero] at hlen
    rw [List.eq_nil_of_length_eq_zero hlen] at hinf
    exact absurd (List.infix_nil.mp hinf) hpat
  | succ fuel ih =>
    intro s hinf hlen
    match s with
    | [] => exact absurd (List.infix_nil.mp hinf) hpat
    | c :: rest =>
      by_cases hpre : pat.isPrefixOf (c :: rest) = true
      · rw [replList, if_pos (by simp [hpre, List.isEmpty_iff, hpat]), List.nil_append]
        have hple : pat.length ≤ (c :: rest).length :=
          (List.isPrefixOf_iff_prefix.mp hpre).length_le
        have hppos : 0 < pat.length := List.length_pos.mpr hpat
        calc (replList fuel pat [] ((c :: rest).drop pat.length)).length
            ≤ ((c :: rest).drop pat.length).length := replList_length_le fuel pat _
          _ < (c :: rest).length := by
              rw [List.length_drop]; omega
      · have hinfr : pat <:+: rest := by
          rcases List.infix_cons_iff.mp hinf with hp | hr
          · exact absurd (List.isPrefixOf_iff_prefix.mpr hp) hpre
          · exact hr
        rw [replList, if_neg (by simp [Bool.of_not_eq_true hpre]),
          List.length_cons, List.length_cons]
        have hrlen : rest.length ≤ fuel := by
          have := hlen; simp only [List.length_cons] at this; omega
        exact Nat.succ_lt_succ (ih rest hinfr hrlen)

theorem containsSub_iff {pat : List Char} :
    ∀ s : List Char, containsSub pat s = true ↔ pat <:+: s := by
  intro s
  induction s with
  | nil =>
    simp [containsSub, List.isEmpty_iff, List.infix_nil]
  | cons c rest ih =>
    simp [containsSub, List.infix_cons_iff, ih, List.isPrefixOf_iff_prefix]

/-! Lemmas on outbound header construction -/

theorem mem_keepReqDict {inbound : List (String × String)} {p : String × String}
    (hp : p ∈ dictOfItems (inbound.filter keepReqHeader)) :
    p ∈ inbound ∧ pyLower p.1 ≠ "host" ∧ pyLower p.1 ≠ "authorization" := by
  have h2 := List.mem_filter.mp (mem_dictOfItems hp)
  refine ⟨h2.1, ?_, ?_⟩ <;>
    · have hk := h2.2
      unfold keepReqHeader at hk
      simp only [Bool.not_eq_eq_eq_not, Bool.not_true, Bool.or_eq_false_iff] at hk
      first
      | exact beq_eq_false_iff_ne.mp hk.1
      | exact beq_eq_false_iff_ne.mp hk.2

theorem lookup_keepReqDict {name : String} (hh : pyLower name ≠ "host")
    (ha : pyLower name ≠ "authorization") (inbound : List (String × String)) :
    List.lookup name (dictOfItems (inbound.filter keepReqHeader))
      = List.lookup name (dictOfItems inbound) := by
  have hq : (!(pyLower name == "host" || pyLower name == "authorization")) = true := by
    simp [beq_eq_false_iff_ne.mpr hh, beq_eq_false_iff_ne.mpr ha]
  exact (congrArg (List.lookup name)
      (dictOfItems_filter (fun x => !(pyLower x == "host" || pyLower x == "authorization"))
        inbound)).trans
    (lookup_filter (fun x => !(pyLower x == "host" || pyLower x == "authorization")) hq
      (dictOfItems inbound))

theorem api_lookup_userId (user : Claims) (inbound : List (String × String))
    (tok : Option String) :
    List.lookup "X-User-Id" (apiOutboundHeaders user inbound tok)
      = some (dictGetD user "user_id" "") := by
  unfold apiOutboundHeaders
  cases tok with
  | none =>
    rw [lookup_dictSet_ne "X-User-Id" (show ("X-User-Id" : String) ≠ "X-User-Email" by decide),
      lookup_dictSet_self]
  | some t =>
    rw [lookup_dictSet_ne "X-User-Id" (show ("X-User-Id" : String) ≠ "Authorization" by decide),
      lookup_dictSet_ne "X-User-Id" (show ("X-User-Id" : String) ≠ "X-User-Email" by decide),
      lookup_dictSet_self]

theorem ai_lookup_userId (user : Claims) (inbound : List (String × String))
    (tok : Option String) :
    List.lookup "X-User-Id" (aiOutboundHeaders user inbound tok)
      = some (dictGetD user "user_id" "") := by
  unfold aiOutboundHeaders
  cases tok with
  | none => rw [lookup_dictSet_self]
  | some t =>
    rw [lookup_dictSet_ne "X-User-Id" (show ("X-User-Id" : String) ≠ "Authorization" by decide),
      lookup_dictSet_self]

theorem api_lookup_email (user : Claims) (inbound : List (String × String))
    (tok : Option String) :
    List.lookup "X-User-Email" (apiOutboundHeaders user inbound tok)
      = some (dictGetD user "email" "") := by
  unfold apiOutboundHeaders
  cases tok with
  | none => rw [lookup_dictSet_self]
  | some t =>
    rw [lookup_dictSet_ne "X-User-Email" (show ("X-User-Email" : String) ≠ "Authorization" by decide),
      lookup_dictSet_self]

theorem ai_lookup_email_none {inbound : List (String × String)}
    (hin : ∀ p ∈ inbound, p.1 ≠ "X-User-Email") (user : Claims) (tok : Option String) :
    List.lookup "X-User-Email" (aiOutboundHeaders user inbound tok) = none := by
  unfold aiOutboundHeaders
  have hbase : List.lookup "X-User-Email" (dictOfItems (inbound.filter keepReqHeader)) = none := by
    refine List.lookup_eq_none_iff.mpr fun p hp => ?_
    have := (mem_keepReqDict hp).1
    simpa using (hin p this).symm
  cases tok with
  | none =>
    rw [lookup_dictSet_ne "X-User-Email" (show ("X-User-Email" : String) ≠ "X-User-Id" by decide)]
    exact hbase
  | some t =>
    rw [lookup_dictSet_ne "X-User-Email" (show ("X-User-Email" : String) ≠ "Authorization" by decide),
      lookup_dictSet_ne "X-User-Email" (show ("X-User-Email" : String) ≠ "X-User-Id" by decide)]
    exact hbase

theorem api_mem_authorization {user : Claims} {inbound : List (String × String)}
    {tok : Option String} {p : String × String}
    (hp : p ∈ apiOutboundHeaders user inbound tok) (hlow : pyLower p.1 = "authorization") :
    ∃ t, tok = some t ∧ p = ("Authorization", "Bearer " ++ t) := by
  unfold apiOutboundHeaders at hp
  cases tok with
  | some t =>
    rcases mem_dictSet hp with heq | ⟨hp, _⟩
    · exact ⟨t, rfl, heq⟩
    · rcases mem_dictSet hp with heq | ⟨hp, _⟩
      · rw [heq] at hlow
        exact absurd hlow (show pyLower "X-User-Email" ≠ "authorization" by decide)
      · rcases mem_dictSet hp with heq | ⟨hp, _⟩
        · rw [heq] at hlow
          exact absurd hlow (show pyLower "X-User-Id" ≠ "authorization" by decide)
        · exact absurd hlow (mem_keepReqDict hp).2.2
  | none =>
    rcases mem_dictSet hp with heq | ⟨hp, _⟩
    · rw [heq] at hlow
      exact absurd hlow (show pyLower "X-User-Email" ≠ "authorization" by decide)
    · rcases mem_dictSet hp with heq | ⟨hp, _⟩
      · rw [heq] at hlow
        exact absurd hlow (show pyLower "X-User-Id" ≠ "authorization" by decide)
      · exact absurd hlow (mem_keepReqDict hp).2.2

theorem ai_mem_authorization {user : Claims} {inbound : List (String × String)}
    {tok : Option String} {p : String × String}
    (hp : p ∈ aiOutboundHeaders user inbound tok) (hlow : pyLower p.1 = "authorization") :
    ∃ t, tok = some t ∧ p = ("Authorization", "Bearer " ++ t) := by
  unfold aiOutboundHeaders at hp
  cases tok with
  | some t =>
    rcases mem_dictSet hp with heq | ⟨hp, _⟩
    · exact ⟨t, rfl, heq⟩
    · rcases mem_dictSet hp with heq | ⟨hp, _⟩
      · rw [heq] at hlow
        exact absurd hlow (show pyLower "X-User-Id" ≠ "authorization" by decide)
      · exact absurd hlow (mem_keepReqDict hp).2.2
  | none =>
    rcases mem_dictSet hp with heq | ⟨hp, _⟩
    · rw [heq] at hlow
      exact absurd hlow (show pyLower "X-User-Id" ≠ "authorization" by decide)
    · exact absurd hlow (mem_keepReqDict hp).2.2

theorem api_mem_host {user : Claims} {inbound : List (String × String)}
    {tok : Option String} {p : String × String}
    (hp : p ∈ apiOutboundHeaders user inbound tok) : pyLower p.1 ≠ "host" := by
  unfold apiOutboundHeaders at hp
  cases tok with
  | some t =>
    rcases mem_dictSet hp with heq | ⟨hp, _⟩
    · rw [heq]; exact (show pyLower "Authorization" ≠ "host" by decide)
    · rcases mem_dictSet hp with heq | ⟨hp, _⟩
      · rw [heq]; exact (show pyLower "X-User-Email" ≠ "host" by decide)
      · rcases mem_dictSet hp with heq | ⟨hp, _⟩
        · rw [heq]; exact (show pyLower "X-User-Id" ≠ "host" by decide)
        · exact (mem_keepReqDict hp).2.1
  | none =>
    rcases mem_dictSet hp with heq | ⟨hp, _⟩
    · rw [heq]; exact (show pyLower "X-User-Email" ≠ "host" by decide)
    · rcases mem_dictSet hp with heq | ⟨hp, _⟩
      · rw [heq]; exact (show pyLower "X-User-Id" ≠ "host" by decide)
      · exact (mem_keepReqDict hp).2.1

theorem ai_mem_host {user : Claims} {inbound : List (String × String)}
    {tok : Option String} {p : String × String}
    (hp : p ∈ aiOutboundHeaders user inbound tok) : pyLower p.1 ≠ "host" := by
  unfold aiOutboundHeaders at hp
  cases tok with
  | some t =>
    rcases mem_dictSet hp with heq | ⟨hp, _⟩
    · rw [heq]; exact (show pyLower "Authorization" ≠ "host" by decide)
    · rcases mem_dictSet hp with heq | ⟨hp, _⟩
      · rw [heq]; exact (show pyLower "X-User-Id" ≠ "host" by decide)
      · exact (mem_keepReqDict hp).2.1
  | none =>
    rcases mem_dictSet hp with heq | ⟨hp, _⟩
    · rw [heq]; exact (show pyLower "X-User-Id" ≠ "host" by decide)
    · exact (mem_keepReqDict hp).2.1

theorem api_lookup_auth_token (user : Claims) (inbound : List (String × String)) (t : String) :
    List.lookup "Authorization" (apiOutboundHeaders user inbound (some t))
      = some ("Bearer " ++ t) := by
  unfold apiOutboundHeaders
  rw [lookup_dictSet_self]

theorem ai_lookup_auth_token (user : Claims) (inbound : List (String × String)) (t : String) :
    List.lookup "Authorization" (aiOutboundHeaders user inbound (some t))
      = some ("Bearer " ++ t) := by
  unfold aiOutboundHeaders
  rw [lookup_dictSet_self]

theorem api_lookup_other {name : String} (hh : pyLower name ≠ "host")
    (ha : pyLower name ≠ "authorization") (h1 : name ≠ "X-User-Id")
    (h2 : name ≠ "X-User-Email") (h3 : name ≠ "Authorization")
    (user : Claims) (inbound : List (String × String)) (tok : Option String) :
    List.lookup name (apiOutboundHeaders user inbound tok)
      = List.lookup name (dictOfItems inbound) := by
  unfold apiOutboundHeaders
  cases tok with
  | none =>
    rw [lookup_dictSet_ne name h2, lookup_dictSet_ne name h1]
    exact lookup_keepReqDict hh ha inbound
  | some t =>
    rw [lookup_dictSet_ne name h3, lookup_dictSet_ne name h2, lookup_dictSet_ne name h1]
    exact lookup_keepReqDict hh ha inbound

theorem ai_lookup_other {name : String} (hh : pyLower name ≠ "host")
    (ha : pyLower name ≠ "authorization") (h1 : name ≠ "X-User-Id")
    (h3 : name ≠ "Authorization")
    (user : Claims) (inbound : List (String × String)) (tok : Option String) :
    List.lookup name (aiOutboundHeaders user inbound tok)
      = List.lookup name (dictOfItems inbound) := by
  unfold aiOutboundHeaders
  cases tok with
  | none =>
    rw [lookup_dictSet_ne name h1]
    exact lookup_keepReqDict hh ha inbound
  | some t =>
    rw [lookup_dictSet_ne name h3, lookup_dictSet_ne name h1]
    exact lookup_keepReqDict hh ha inbound

/-! Auxiliary facts about the credential verifier -/

theorem pyStartsWith_append (pre s : String) : pyStartsWith (pre ++ s) pre = true := by
  unfold pyStartsWith
  rw [String.data_append]
  exact List.isPrefixOf_iff_prefix.mpr (List.prefix_append _ _)

theorem ne_empty_of_bearer {auth : String} (h : pyStartsWith auth "Bearer " = true) :
    auth ≠ "" := by
  intro he
  rw [he] at h
  exact absurd h (by decide)

theorem verifyToken_none (cfg : GatewayConfig) :
    verifyToken cfg none = .error ⟨401, "Authorization header missing"⟩ := rfl

theorem verifyToken_empty (cfg : GatewayConfig) :
    verifyToken cfg (some "") = .error ⟨401, "Authorization header missing"⟩ := by
  simp [verifyToken]

theorem verifyToken_malformed (cfg : GatewayConfig) {auth : String} (hne : auth ≠ "")
    (h : pyStartsWith auth "Bearer " = false) :
    verifyToken cfg (some auth)
      = .error ⟨401, "Invalid authorization format. Expected: Bearer <token>"⟩ := by
  simp only [verifyToken]
  rw [if_neg hne, if_pos (by simp [h])]

theorem verifyToken_bypass (cfg : GatewayConfig) (h : cfg.testBypassToken ≠ "") :
    verifyToken cfg (some ("Bearer " ++ cfg.testBypassToken)) = .ok testAdminUser := by
  have hne : ("Bearer " ++ cfg.testBypassToken) ≠ "" :=
    ne_empty_of_bearer (pyStartsWith_append "Bearer " cfg.testBypassToken)
  simp [verifyToken, h, hne, pyStartsWith_append]

theorem verifyToken_dev (cfg : GatewayConfig) (henv : cfg.environment = "development")
    (hnone : cfg.jwksClient = none) {auth : String}
    (hstart : pyStartsWith auth "Bearer " = true)
    (hbp : ¬(cfg.testBypassToken ≠ "" ∧ auth = "Bearer " ++ cfg.testBypassToken)) :
    verifyToken cfg (some auth) = .ok devUser := by
  simp [verifyToken, ne_empty_of_bearer hstart, hstart, hbp, henv, hnone]

/-! Claim C2 -/

/-- C2 counterexample: the claim says every header that does not start
with "Bearer " fails as MalformedCredential, but `if not
authorization:` (main.py line 75) is a Python truthiness check, so a
present-but-empty Authorization header takes the missing-header branch:
the program returns 401 "Authorization header missing", not the
malformed-format 401 the claim requires for it. -/
theorem claim2_counterexample :
    pyStartsWith "" "Bearer " = false
    ∧ verifyToken prodConfig (some "") = .error ⟨401, "Authorization header missing"⟩
    ∧ errDetail (verifyToken prodConfig (some "")) = some "Authorization header missing"
    ∧ errDetail (verifyToken prodConfig (some ""))
        ≠ some "Invalid authorization format. Expected: Bearer <token>"
    ∧ headerLookup reqEmptyAuth.headers "authorization" = some ""
    ∧ proxyToApiRequest prodConfig reqEmptyAuth
        = .error ⟨401, "Authorization header missing"⟩ :=
  ⟨by decide, by rfl, by decide, by decide, by decide, by rfl⟩

/-- C2 (amended): for every request to a protected route, verification
fails with the missing-credential HTTP 401 when the Authorization
header is absent or present but empty (Python truthiness of `if not
authorization:`), and with the malformed-format HTTP 401 when the
non-empty header does not start with the literal prefix "Bearer "; in
all cases the proxy handlers fail before producing any outbound
request. -/
theorem claim2_amended_missing_and_malformed_401 (cfg : GatewayConfig)
    (req : InboundRequest) :
    (verifyToken cfg none = .error ⟨401, "Authorization header missing"⟩)
    ∧ (verifyToken cfg (some "") = .error ⟨401, "Authorization header missing"⟩)
    ∧ (∀ auth, auth ≠ "" → pyStartsWith auth "Bearer " = false →
        verifyToken cfg (some auth)
          = .error ⟨401, "Invalid authorization format. Expected: Bearer <token>"⟩)
    ∧ (headerLookup req.headers "authorization" = none →
        proxyToApiRequest cfg req = .error ⟨401, "Authorization header missing"⟩
        ∧ proxyToAiRequest cfg req = .error ⟨401, "Authorization header missing"⟩)
    ∧ (headerLookup req.headers "authorization" = some "" →
        proxyToApiRequest cfg req = .error ⟨401, "Authorization header missing"⟩
        ∧ proxyToAiRequest cfg req = .error ⟨401, "Authorization header missing"⟩)
    ∧ (∀ auth, headerLookup req.headers "authorization" = some auth → auth ≠ "" →
        pyStartsWith auth "Bearer " = false →
        proxyToApiRequest cfg req
            = .error ⟨401, "Invalid authorization format. Expected: Bearer <token>"⟩
        ∧ proxyToAiRequest cfg req
            = .error ⟨401, "Invalid authorization format. Expected: Bearer <token>"⟩) := by
  refine ⟨verifyToken_none cfg, verifyToken_empty cfg,
    fun auth hne h => verifyToken_malformed cfg hne h, ?_, ?_, ?_⟩
  · intro hnone
    constructor
    · unfold proxyToApiRequest
      rw [hnone, verifyToken_none cfg]
    · unfold proxyToAiRequest
      rw [hnone, verifyToken_none cfg]
  · intro hsome
    constructor
    · unfold proxyToApiRequest
      rw [hsome, verifyToken_empty cfg]
    · unfold proxyToAiRequest
      rw [hsome, verifyToken_empty cfg]
  · intro auth hsome hne hmal
    constructor
    · unfold proxyToApiRequest
      rw [hsome, verifyToken_malformed cfg hne hmal]
    · unfold proxyToAiRequest
      rw [hsome, verifyToken_malformed cfg hne hmal]

/-- C2 witness at concrete inputs: an absent header, an empty header
and a malformed header, at the verifier and through both handlers. -/
theorem claim2_witness :
    (pyStartsWith "Token abc" "Bearer " = false)
    ∧ ("Token abc" ≠ "")
    ∧ (headerLookup reqNoAuth.headers "authorization" = none)
    ∧ (headerLookup reqEmptyAuth.headers "authorization" = some "")
    ∧ (headerLookup reqMalformed.headers "authorization" = some "Token abc")
    ∧ (verifyToken prodConfig none = .error ⟨401, "Authorization header missing"⟩)
    ∧ (verifyToken prodConfig (some "") = .error ⟨401, "Authorization header missing"⟩)
    ∧ (proxyToApiRequest prodConfig reqNoAuth
        = .error ⟨401, "Authorization header missing"⟩)
    ∧ (proxyToAiRequest prodConfig reqNoAuth
        = .error ⟨401, "Authorization header missing"⟩)
    ∧ (proxyToApiRequest prodConfig reqEmptyAuth
        = .error ⟨401, "Authorization header missing"⟩)
    ∧ (proxyToAiRequest prodConfig reqEmptyAuth
        = .error ⟨401, "Authorization header missing"⟩)
    ∧ (proxyToApiRequest prodConfig reqMalformed
        = .error ⟨401, "Invalid authorization format. Expected: Bearer <token>"⟩)
    ∧ (proxyToAiRequest prodConfig reqMalformed
        = .error ⟨401, "Invalid authorization format. Expected: Bearer <token>"⟩) := by
  have h := claim2_amended_missing_and_malformed_401 prodConfig reqNoAuth
  have he := claim2_amended_missing_and_malformed_401 prodConfig reqEmptyAuth
  have hm := claim2_amended_missing_and_malformed_401 prodConfig reqMalformed
  refine ⟨by decide, by decide, by decide, by decide, by decide, h.1, h.2.1,
    (h.2.2.2.1 (by decide)).1, (h.2.2.2.1 (by decide)).2,
    (he.2.2.2.2.1 (by decide)).1, (he.2.2.2.2.1 (by decide)).2,
    (hm.2.2.2.2.2 "Token abc" (by decide) (by decide) (by decide)).1,
    (hm.2.2.2.2.2 "Token abc" (by decide) (by decide) (by decide)).2⟩

/-! Claim C3 -/

/-- C3: whenever a non-empty bypass token is configured and the
Authorization header is exactly `Bearer <bypass-token>`, verification
succeeds with the fixed administrative identity (user_id
"test_admin_123", email "admin@test.example.com", role "admin"),
regardless of environment, JWKS configuration (the whole `cfg` is
universally quantified) and of path and method (both proxy handlers,
quantified over the whole request, forward that identity). -/
theorem claim3_bypass_admin_identity (cfg : GatewayConfig) (h : cfg.testBypassToken ≠ "") :
    verifyToken cfg (some ("Bearer " ++ cfg.testBypassToken)) = .ok testAdminUser
    ∧ dictGetD testAdminUser "user_id" "" = "test_admin_123"
    ∧ dictGetD testAdminUser "email" "" = "admin@test.example.com"
    ∧ dictGetD testAdminUser "role" "" = "admin"
    ∧ (∀ req : InboundRequest,
        headerLookup req.headers "authorization" = some ("Bearer " ++ cfg.testBypassToken) →
        (proxyToApiRequest cfg req).map (fun o => List.lookup "X-User-Id" o.headers)
            = .ok (some "test_admin_123")
        ∧ (proxyToAiRequest cfg req).map (fun o => List.lookup "X-User-Id" o.headers)
            = .ok (some "test_admin_123")) := by
  refine ⟨verifyToken_bypass cfg h, rfl, rfl, rfl, ?_⟩
  intro req hreq
  constructor
  · simp only [proxyToApiRequest, hreq, verifyToken_bypass cfg h, Except.map]
    rw [api_lookup_userId]
    rfl
  · simp only [proxyToAiRequest, hreq, verifyToken_bypass cfg h, Except.map]
    rw [ai_lookup_userId]
    rfl

/-- C3 witness at concrete inputs. -/
theorem claim3_witness :
    (prodConfig.testBypassToken ≠ "")
    ∧ (headerLookup reqBypass.headers "authorization"
        = some ("Bearer " ++ prodConfig.testBypassToken))
    ∧ verifyToken prodConfig (some ("Bearer " ++ prodConfig.testBypassToken))
        = .ok testAdminUser
    ∧ (proxyToApiRequest prodConfig reqBypass).map (fun o => List.lookup "X-User-Id" o.headers)
        = .ok (some "test_admin_123")
    ∧ (proxyToAiRequest prodConfig reqBypass).map (fun o => List.lookup "X-User-Id" o.headers)
        = .ok (some "test_admin_123") := by
  have h := claim3_bypass_admin_identity prodConfig (by decide)
  exact ⟨by decide, by decide, h.1,
    (h.2.2.2.2 reqBypass (by decide)).1, (h.2.2.2.2 reqBypass (by decide)).2⟩

/-! Claim C8 -/

/-- C8: with environment "development" the module initializer leaves
the JWKS client uninitialized, and then every request whose
Authorization header starts with "Bearer " but does not match the
bypass token is authenticated as the fixed identity
(user_id "dev_user", email "dev@example.com"); in this mode the only
possible verification failures are the missing-header and
malformed-header 401s — never InvalidCredential, never
AuthServiceUnavailable. -/
theorem claim8_development_mode (cfg : GatewayConfig)
    (attempt : Option (String → Except PyJwtError Claims))
    (henv : cfg.environment = "development")
    (hinit : cfg.jwksClient = initJwksClient cfg.environment attempt) :
    cfg.jwksClient = none
    ∧ (∀ auth, pyStartsWith auth "Bearer " = true →
        ¬(cfg.testBypassToken ≠ "" ∧ auth = "Bearer " ++ cfg.testBypassToken) →
        verifyToken cfg (some auth) = .ok devUser)
    ∧ (∀ a e, verifyToken cfg a = .error e →
        e = ⟨401, "Authorization header missing"⟩
        ∨ e = ⟨401, "Invalid authorization format. Expected: Bearer <token>"⟩) := by
  have hnone : cfg.jwksClient = none := by
    rw [hinit, henv]
    simp [initJwksClient]
  refine ⟨hnone, fun auth hstart hbp => verifyToken_dev cfg henv hnone hstart hbp, ?_⟩
  intro a e hve
  match a with
  | none =>
    rw [verifyToken_none cfg] at hve
    exact Or.inl (by injection hve with h; exact h.symm)
  | some auth =>
    by_cases hempty : auth = ""
    · rw [hempty, verifyToken_empty cfg] at hve
      exact Or.inl (by injection hve with h; exact h.symm)
    · by_cases hstart : pyStartsWith auth "Bearer " = true
      · by_cases hbp : cfg.testBypassToken ≠ "" ∧ auth = "Bearer " ++ cfg.testBypassToken
        · rw [hbp.2, verifyToken_bypass cfg hbp.1] at hve
          cases hve
        · rw [verifyToken_dev cfg henv hnone hstart hbp] at hve
          cases hve
      · have hstart' : pyStartsWith auth "Bearer " = false := Bool.of_not_eq_true hstart
        rw [verifyToken_malformed cfg hempty hstart'] at hve
        exact Or.inr (by injection hve with h; exact h.symm)

/-- C8 witness at concrete inputs. -/
theorem claim8_witness :
    (devConfig.environment = "development")
    ∧ (devConfig.jwksClient = initJwksClient devConfig.environment (some sampleJwks))
    ∧ devConfig.jwksClient = none
    ∧ (pyStartsWith "Bearer whatever-token" "Bearer " = true)
    ∧ (¬(devConfig.testBypassToken ≠ ""
        ∧ "Bearer whatever-token" = "Bearer " ++ devConfig.testBypassToken))
    ∧ verifyToken devConfig (some "Bearer whatever-token") = .ok devUser := by
  have h := claim8_development_mode devConfig (some sampleJwks) rfl rfl
  exact ⟨rfl, rfl, h.1, by decide, by decide,
    h.2.1 "Bearer whatever-token" (by decide) (by decide)⟩

/-! Claim C9 -/

/-- C9: the gateway exposes `GET /debug/env`, unauthenticated: for
every request (no credential checked, the request is ignored entirely)
it returns 200 with the environment name, whether a bypass token is
configured and its length, whether JWKS is configured, and the project
id. -/
theorem claim9_debug_env (cfg : GatewayConfig) (req rother : InboundRequest) :
    (debugEnvHandler cfg req).1 = 200
    ∧ debugEnvHandler cfg req = debugEnvHandler cfg rother
    ∧ (debugEnvHandler cfg req).2.environment = cfg.environment
    ∧ ((debugEnvHandler cfg req).2.testBypassTokenIsSet = true ↔ cfg.testBypassToken ≠ "")
    ∧ (debugEnvHandler cfg req).2.testBypassTokenLength = cfg.testBypassToken.length
    ∧ ((debugEnvHandler cfg req).2.jwksIsSet = cfg.jwksClient.isSome)
    ∧ (debugEnvHandler cfg req).2.projectId = cfg.projectId := by
  refine ⟨rfl, rfl, rfl, ?_, ?_, rfl, rfl⟩
  · exact decide_eq_true_iff
  · show (if cfg.testBypassToken ≠ "" then cfg.testBypassToken.length else 0)
      = cfg.testBypassToken.length
    by_cases h : cfg.testBypassToken = ""
    · rw [if_neg (not_not_intro h), h]
      rfl
    · rw [if_pos h]

/-- C9 witness at concrete inputs. -/
theorem claim9_witness :
    (debugEnvHandler prodConfig reqNoAuth).1 = 200
    ∧ debugEnvHandler prodConfig reqNoAuth = debugEnvHandler prodConfig reqBypass
    ∧ (debugEnvHandler prodConfig reqNoAuth).2.environment = "production"
    ∧ ((debugEnvHandler prodConfig reqNoAuth).2.testBypassTokenIsSet = true
        ↔ prodConfig.testBypassToken ≠ "")
    ∧ (debugEnvHandler prodConfig reqNoAuth).2.testBypassTokenLength = 6
    ∧ (debugEnvHandler prodConfig reqNoAuth).2.jwksIsSet = true := by
  have h := claim9_debug_env prodConfig reqNoAuth reqBypass
  exact ⟨h.1, h.2.1, h.2.2.1, h.2.2.2.1, h.2.2.2.2.1, h.2.2.2.2.2.1⟩

/-! Shape of a successful proxy phase-1 result -/

theorem proxyToApiRequest_ok {cfg : GatewayConfig} {req : InboundRequest}
    {out : OutboundRequest} (h : proxyToApiRequest cfg req = .ok out) :
    ∃ user, verifyToken cfg (headerLookup req.headers "authorization") = .ok user
      ∧ out = { method := req.method
                url := buildProxyUrl cfg.apiServiceUrl req.path req.query
                headers := apiOutboundHeaders user req.headers
                  (cfg.getAuthToken cfg.apiServiceUrl)
                body := proxyBody req.method req.body
                timeout := apiTimeout req.path } := by
  cases hv : verifyToken cfg (headerLookup req.headers "authorization") with
  | error e =>
    simp only [proxyToApiRequest, hv] at h
    exact Except.noConfusion h
  | ok user =>
    simp only [proxyToApiRequest, hv] at h
    exact ⟨user, rfl, by injection h with h2; exact h2.symm⟩

theorem proxyToAiRequest_ok {cfg : GatewayConfig} {req : InboundRequest}
    {out : OutboundRequest} (h : proxyToAiRequest cfg req = .ok out) :
    ∃ user, verifyToken cfg (headerLookup req.headers "authorization") = .ok user
      ∧ out = { method := req.method
                url := buildProxyUrl cfg.aiServiceUrl req.path req.query
                headers := aiOutboundHeaders user req.headers
                  (cfg.getAuthToken cfg.aiServiceUrl)
                body := proxyBody req.method req.body
                timeout := aiTimeout } := by
  cases hv : verifyToken cfg (headerLookup req.headers "authorization") with
  | error e =>
    simp only [proxyToAiRequest, hv] at h
    exact Except.noConfusion h
  | ok user =>
    simp only [proxyToAiRequest, hv] at h
    exact ⟨user, rfl, by injection h with h2; exact h2.symm⟩

/-! Claim C6 -/

/-- C6: on both routes a successfully forwarded request carries the raw
inbound body if and only if the method is POST, PUT or PATCH; for every
other method no body is forwarded. -/
theorem claim6_body_only_for_mutating_methods (cfg : GatewayConfig) (req : InboundRequest)
    (out : OutboundRequest)
    (h : proxyToApiRequest cfg req = .ok out ∨ proxyToAiRequest cfg req = .ok out) :
    (out.body = some req.body
      ↔ (req.method = "POST" ∨ req.method = "PUT" ∨ req.method = "PATCH"))
    ∧ ((req.method ≠ "POST" ∧ req.method ≠ "PUT" ∧ req.method ≠ "PATCH") →
        out.body = none) := by
  have hbody : out.body = proxyBody req.method req.body := by
    rcases h with h | h
    · obtain ⟨u, _, rfl⟩ := proxyToApiRequest_ok h; rfl
    · obtain ⟨u, _, rfl⟩ := proxyToAiRequest_ok h; rfl
  rw [hbody]
  unfold proxyBody
  by_cases hm : req.method ∈ (["POST", "PUT", "PATCH"] : List String)
  · have hm' : req.method = "POST" ∨ req.method = "PUT" ∨ req.method = "PATCH" := by
      simpa using hm
    rw [if_pos hm]
    exact ⟨⟨fun _ => hm', fun _ => rfl⟩,
      fun hne => absurd hm' (by rcases hne with ⟨h1, h2, h3⟩; rintro (h | h | h) <;> contradiction)⟩
  · have hm' : ¬(req.method = "POST" ∨ req.method = "PUT" ∨ req.method = "PATCH") := by
      simpa using hm
    rw [if_neg hm]
    exact ⟨⟨fun hco => absurd hco (by simp), fun hdis => absurd hdis hm'⟩, fun _ => rfl⟩

/-- C6 witness at concrete inputs: a POST forwards its body, a GET
forwards none. -/
theorem claim6_witness :
    (proxyToApiRequest prodConfig reqBypass
      = .ok (outOrDefault (proxyToApiRequest prodConfig reqBypass)))
    ∧ (outOrDefault (proxyToApiRequest prodConfig reqBypass)).body = some "hello"
    ∧ (proxyToAiRequest prodConfig reqGetBypass
      = .ok (outOrDefault (proxyToAiRequest prodConfig reqGetBypass)))
    ∧ (outOrDefault (proxyToAiRequest prodConfig reqGetBypass)).body = none := by
  have h1 : proxyToApiRequest prodConfig reqBypass
      = .ok (outOrDefault (proxyToApiRequest prodConfig reqBypass)) := by rfl
  have h2 : proxyToAiRequest prodConfig reqGetBypass
      = .ok (outOrDefault (proxyToAiRequest prodConfig reqGetBypass)) := by rfl
  refine ⟨h1, ?_, h2, ?_⟩
  · exact (claim6_body_only_for_mutating_methods prodConfig reqBypass _ (Or.inl h1)).1.mpr
      (Or.inl rfl)
  · exact (claim6_body_only_for_mutating_methods prodConfig reqGetBypass _ (Or.inr h2)).2
      ⟨by decide, by decide, by decide⟩

/-! Claim C7 -/

/-- C7 counterexample: the claim says the timeout policy — 30 s default,
60 s with a 10 s connect timeout for file paths — applies to both Route
Table routes, but a file path on the AI route still gets the plain 30 s
timeout with no separate connect timeout. -/
theorem claim7_counterexample :
    pyContains reqFileAi.path "file" = true
    ∧ timeoutOf (proxyToAiRequest prodConfig reqFileAi) = some ⟨30, none⟩
    ∧ timeoutOf (proxyToAiRequest prodConfig reqFileAi) ≠ some ⟨60, some 10⟩ :=
  ⟨by decide, by decide, by decide⟩

/-- C7 (amended): the API route uses a 30-second default total timeout
and, when the path contains "file", 60 seconds with a separate
10-second connect timeout; the AI route always uses a plain 30-second
timeout with no file extension and no separate connect timeout. -/
theorem claim7_amended_timeout_policy (cfg : GatewayConfig) (req : InboundRequest)
    (out : OutboundRequest) :
    (proxyToApiRequest cfg req = .ok out →
      (("file".data <:+: req.path.data) → out.timeout = ⟨60, some 10⟩)
      ∧ (¬("file".data <:+: req.path.data) → out.timeout = ⟨30, none⟩))
    ∧ (proxyToAiRequest cfg req = .ok out → out.timeout = ⟨30, none⟩) := by
  constructor
  · intro h
    obtain ⟨u, _, rfl⟩ := proxyToApiRequest_ok h
    constructor
    · intro hinf
      have hc : pyContains req.path "file" = true := (containsSub_iff req.path.data).mpr hinf
      show apiTimeout req.path = _
      unfold apiTimeout
      rw [if_pos hc]
    · intro hninf
      have hc : ¬ pyContains req.path "file" = true :=
        fun hc => hninf ((containsSub_iff req.path.data).mp hc)
      show apiTimeout req.path = _
      unfold apiTimeout
      rw [if_neg hc]
  · intro h
    obtain ⟨u, _, rfl⟩ := proxyToAiRequest_ok h
    rfl

/-- C7 witness at concrete inputs. -/
theorem claim7_witness :
    (proxyToApiRequest prodConfig reqFileApi
      = .ok (outOrDefault (proxyToApiRequest prodConfig reqFileApi)))
    ∧ (outOrDefault (proxyToApiRequest prodConfig reqFileApi)).timeout = ⟨60, some 10⟩
    ∧ (proxyToApiRequest prodConfig reqBypass
      = .ok (outOrDefault (proxyToApiRequest prodConfig reqBypass)))
    ∧ (outOrDefault (proxyToApiRequest prodConfig reqBypass)).timeout = ⟨30, none⟩
    ∧ (proxyToAiRequest prodConfig reqFileAi
      = .ok (outOrDefault (proxyToAiRequest prodConfig reqFileAi)))
    ∧ (outOrDefault (proxyToAiRequest prodConfig reqFileAi)).timeout = ⟨30, none⟩ := by
  have h1 : proxyToApiRequest prodConfig reqFileApi
      = .ok (outOrDefault (proxyToApiRequest prodConfig reqFileApi)) := by rfl
  have h2 : proxyToApiRequest prodConfig reqBypass
      = .ok (outOrDefault (proxyToApiRequest prodConfig reqBypass)) := by rfl
  have h3 : proxyToAiRequest prodConfig reqFileAi
      = .ok (outOrDefault (proxyToAiRequest prodConfig reqFileAi)) := by rfl
  refine ⟨h1, ?_, h2, ?_, h3, ?_⟩
  · exact ((claim7_amended_timeout_policy prodConfig reqFileApi _).1 h1).1
      ((containsSub_iff _).mp (by decide))
  · exact ((claim7_amended_timeout_policy prodConfig reqBypass _).1 h2).2
      (fun hinf => absurd ((containsSub_iff _).mpr hinf) (by decide))
  · exact (claim7_amended_timeout_policy prodConfig reqFileAi _).2 h3

/-! Claim C10 -/

theorem bearerToken_leading (suffix : String) :
    bearerToken ("Bearer " ++ suffix)
      = ⟨replList (6 + suffix.data.length) "Bearer ".data [] suffix.data⟩ := by
  unfold bearerToken pyReplace
  have hdata : ("Bearer " ++ suffix).data = "Bearer ".data ++ suffix.data :=
    String.data_append "Bearer " suffix
  rw [hdata]
  have hlen : ("Bearer ".data ++ suffix.data).length = (6 + suffix.data.length) + 1 := by
    rw [List.length_append]
    show 7 + suffix.data.length = 6 + suffix.data.length + 1
    omega
  rw [hlen]
  have happ := @replList_append_left "Bearer ".data [] (by decide)
    (6 + suffix.data.length) suffix.data
  exact congrArg (fun l => String.mk l) (happ.trans (List.nil_append _))

/-- C10: the token submitted for signature verification is the header
with every occurrence of "Bearer " removed (CPython `str.replace`), not
just the leading prefix stripped: whenever "Bearer " occurs again after
the prefix the verified token differs from the suffix after the first
"Bearer "; when it does not, the two coincide; and in the real
verification path the JWKS oracle receives exactly this
globally-replaced token. -/
theorem claim10_global_bearer_replacement (suffix : String) :
    ("Bearer ".data <:+: suffix.data → bearerToken ("Bearer " ++ suffix) ≠ suffix)
    ∧ (¬ "Bearer ".data <:+: suffix.data → bearerToken ("Bearer " ++ suffix) = suffix)
    ∧ (∀ (cfg : GatewayConfig) (f : String → Except PyJwtError Claims) (auth : String),
        pyStartsWith auth "Bearer " = true →
        cfg.testBypassToken = "" →
        cfg.jwksClient = some f →
        verifyToken cfg (some auth)
          = match f (bearerToken auth) with
            | .ok payload => .ok payload
            | .error e => .error ⟨401, "Invalid token: " ++ e.message⟩) := by
  refine ⟨?_, ?_, ?_⟩
  · intro hinf heq
    rw [bearerToken_leading suffix] at heq
    have hdata : replList (6 + suffix.data.length) "Bearer ".data [] suffix.data
        = suffix.data := congrArg String.data heq
    have hlt := @replList_length_lt "Bearer ".data (by decide)
      (6 + suffix.data.length) suffix.data hinf (by omega)
    rw [hdata] at hlt
    exact Nat.lt_irrefl _ hlt
  · intro hninf
    rw [bearerToken_leading suffix,
      replList_no_occurrence (6 + suffix.data.length) suffix.data hninf]
  · intro cfg f auth hstart hbp hjwks
    simp [verifyToken, ne_empty_of_bearer hstart, hstart, hbp, hjwks]

/-- C10 witness at concrete inputs: a doubled scheme prefix makes the
verified token "x", which is not the suffix "Bearer x"; a plain suffix
passes through; the oracle is invoked on the replaced token. -/
theorem claim10_witness :
    ("Bearer ".data <:+: "Bearer x".data)
    ∧ bearerToken ("Bearer " ++ "Bearer x") ≠ "Bearer x"
    ∧ (¬ "Bearer ".data <:+: "abc".data)
    ∧ bearerToken ("Bearer " ++ "abc") = "abc"
    ∧ (pyStartsWith "Bearer validtoken" "Bearer " = true)
    ∧ (prodConfigNoBypass.testBypassToken = "")
    ∧ (prodConfigNoBypass.jwksClient = some sampleJwks)
    ∧ verifyToken prodConfigNoBypass (some "Bearer validtoken")
        = .ok [("user_id", "real_user"), ("email", "real@example.com")] := by
  have hinf : "Bearer ".data <:+: "Bearer x".data := (containsSub_iff _).mp (by decide)
  have hninf : ¬ "Bearer ".data <:+: "abc".data :=
    fun hinf => absurd ((containsSub_iff _).mpr hinf) (by decide)
  refine ⟨hinf, (claim10_global_bearer_replacement "Bearer x").1 hinf, hninf,
    (claim10_global_bearer_replacement "abc").2.1 hninf, by decide, rfl, rfl, ?_⟩
  rw [(claim10_global_bearer_replacement "").2.2 prodConfigNoBypass sampleJwks
    "Bearer validtoken" (by decide) rfl rfl]
  rfl

/-! Claim C4 -/

/-- C4 counterexample: the claim says a failing key-retrieval fetch
yields AuthServiceUnavailable (503); on the code a fetch failure is
caught by the same handler as every verification error and yields 401
InvalidCredential. -/
theorem claim4_counterexample :
    fetchFailJwks (bearerToken "Bearer sometoken")
        = .error (.fetchFailure "Connection timed out")
    ∧ verifyToken fetchFailConfig (some "Bearer sometoken")
        = .error ⟨401, "Invalid token: Connection timed out"⟩
    ∧ errStatus (verifyToken fetchFailConfig (some "Bearer sometoken")) = some 401
    ∧ errStatus (verifyToken fetchFailConfig (some "Bearer sometoken")) ≠ some 503 :=
  ⟨rfl, rfl, rfl, by decide⟩

/-- C4 (amended): when real verification is required (well-formed
header, bypass not matched, not in permissive development mode): if no
signing-key source was initialized the result is AuthServiceUnavailable
(HTTP 503); every exception raised during key retrieval or decoding —
including failed or timed-out JWKS fetches as well as bad signatures,
wrong audiences and expired claims — yields InvalidCredential (HTTP
401) carrying the underlying reason; a successful decode returns its
payload. -/
theorem claim4_amended_error_mapping (cfg : GatewayConfig) (auth : String)
    (hstart : pyStartsWith auth "Bearer " = true)
    (hbp : ¬(cfg.testBypassToken ≠ "" ∧ auth = "Bearer " ++ cfg.testBypassToken))
    (hdev : ¬(cfg.environment = "development" ∧ cfg.jwksClient.isNone = true)) :
    (cfg.jwksClient = none →
      verifyToken cfg (some auth) = .error ⟨503, "Authentication service not configured"⟩)
    ∧ (∀ f e, cfg.jwksClient = some f → f (bearerToken auth) = .error e →
        verifyToken cfg (some auth) = .error ⟨401, "Invalid token: " ++ e.message⟩)
    ∧ (∀ f payload, cfg.jwksClient = some f → f (bearerToken auth) = .ok payload →
        verifyToken cfg (some auth) = .ok payload) := by
  refine ⟨?_, ?_, ?_⟩
  · intro hnone
    have henv : ¬ cfg.environment = "development" := fun he =>
      hdev ⟨he, by rw [hnone]; rfl⟩
    simp [verifyToken, ne_empty_of_bearer hstart, hstart, hbp, henv, hnone]
  · intro f e hjwks herr
    simp [verifyToken, ne_empty_of_bearer hstart, hstart, hbp, hdev, hjwks, herr]
  · intro f payload hjwks hok
    simp [verifyToken, ne_empty_of_bearer hstart, hstart, hbp, hdev, hjwks, hok]

/-- C4 witness at concrete inputs: a missing signing-key source gives
503; a fetch failure gives 401 with the reason; a decodable token gives
its payload. -/
theorem claim4_witness :
    (pyStartsWith "Bearer sometoken" "Bearer " = true)
    ∧ verifyToken { prodConfig with testBypassToken := "", jwksClient := none }
        (some "Bearer sometoken") = .error ⟨503, "Authentication service not configured"⟩
    ∧ verifyToken fetchFailConfig (some "Bearer sometoken")
        = .error ⟨401, "Invalid token: Connection timed out"⟩
    ∧ verifyToken prodConfigNoBypass (some "Bearer validtoken")
        = .ok [("user_id", "real_user"), ("email", "real@example.com")] := by
  refine ⟨by decide, ?_, ?_, ?_⟩
  · exact (claim4_amended_error_mapping _ "Bearer sometoken" (by decide) (by decide)
      (by decide)).1 rfl
  · exact (claim4_amended_error_mapping fetchFailConfig "Bearer sometoken" (by decide)
      (by decide) (by decide)).2.1 fetchFailJwks (.fetchFailure "Connection timed out") rfl rfl
  · exact (claim4_amended_error_mapping prodConfigNoBypass "Bearer validtoken" (by decide)
      (by decide) (by decide)).2.2 sampleJwks
      [("user_id", "real_user"), ("email", "real@example.com")] rfl rfl

/-! Claim C5 -/

theorem mem_keepRespDict {hs : List (String × String)} {p : String × String}
    (hp : p ∈ stripRespHeaders hs) :
    p ∈ hs ∧ pyLower p.1 ≠ "content-encoding" ∧ pyLower p.1 ≠ "content-length"
      ∧ pyLower p.1 ≠ "transfer-encoding" ∧ pyLower p.1 ≠ "connection" := by
  have h2 := List.mem_filter.mp (mem_dictOfItems hp)
  refine ⟨h2.1, ?_, ?_, ?_, ?_⟩ <;>
    · have hk := h2.2
      unfold keepRespHeader at hk
      simp only [Bool.not_eq_eq_eq_not, Bool.not_true, Bool.or_eq_false_iff] at hk
      first
      | exact beq_eq_false_iff_ne.mp hk.1.1.1
      | exact beq_eq_false_iff_ne.mp hk.1.1.2
      | exact beq_eq_false_iff_ne.mp hk.1.2
      | exact beq_eq_false_iff_ne.mp hk.2

theorem lookup_keepRespDict {name : String}
    (h1 : pyLower name ≠ "content-encoding") (h2 : pyLower name ≠ "content-length")
    (h3 : pyLower name ≠ "transfer-encoding") (h4 : pyLower name ≠ "connection")
    (hs : List (String × String)) :
    List.lookup name (stripRespHeaders hs) = List.lookup name (dictOfItems hs) := by
  have hq : (!(pyLower name == "content-encoding" || pyLower name == "content-length" ||
      pyLower name == "transfer-encoding" || pyLower name == "connection")) = true := by
    simp [beq_eq_false_iff_ne.mpr h1, beq_eq_false_iff_ne.mpr h2,
      beq_eq_false_iff_ne.mpr h3, beq_eq_false_iff_ne.mpr h4]
  unfold stripRespHeaders
  exact (congrArg (List.lookup name)
      (dictOfItems_filter (fun x => !(pyLower x == "content-encoding" ||
        pyLower x == "content-length" || pyLower x == "transfer-encoding" ||
        pyLower x == "connection")) hs)).trans
    (lookup_filter (fun x => !(pyLower x == "content-encoding" ||
        pyLower x == "content-length" || pyLower x == "transfer-encoding" ||
        pyLower x == "connection")) hq (dictOfItems hs))

theorem proxyToApiResponse_parts (resp : UpstreamResponse) :
    (proxyToApiResponse resp).status = resp.status
    ∧ (proxyToApiResponse resp).content = resp.content
    ∧ (proxyToApiResponse resp).headers = stripRespHeaders resp.headers := by
  simp only [proxyToApiResponse]
  split
  · exact ⟨rfl, rfl, rfl⟩
  · exact ⟨rfl, rfl, rfl⟩

/-- C5: both relays copy the upstream status code and body verbatim;
the forwarded header set never contains a `Content-Encoding`,
`Content-Length`, `Transfer-Encoding` or `Connection` entry; every
other upstream header — in particular `Content-Type` — is forwarded
unchanged (relative to the upstream header mapping, i.e. its items
dict). -/
theorem claim5_response_relay (resp : UpstreamResponse) :
    ((proxyToApiResponse resp).status = resp.status
      ∧ (proxyToAiResponse resp).status = resp.status)
    ∧ ((proxyToApiResponse resp).content = resp.content
      ∧ (proxyToAiResponse resp).content = resp.content)
    ∧ (∀ p ∈ (proxyToApiResponse resp).headers,
        pyLower p.1 ≠ "content-encoding" ∧ pyLower p.1 ≠ "content-length"
        ∧ pyLower p.1 ≠ "transfer-encoding" ∧ pyLower p.1 ≠ "connection")
    ∧ (∀ p ∈ (proxyToAiResponse resp).headers,
        pyLower p.1 ≠ "content-encoding" ∧ pyLower p.1 ≠ "content-length"
        ∧ pyLower p.1 ≠ "transfer-encoding" ∧ pyLower p.1 ≠ "connection")
    ∧ (∀ name, pyLower name ≠ "content-encoding" → pyLower name ≠ "content-length" →
        pyLower name ≠ "transfer-encoding" → pyLower name ≠ "connection" →
        List.lookup name (proxyToApiResponse resp).headers
            = List.lookup name (dictOfItems resp.headers)
        ∧ List.lookup name (proxyToAiResponse resp).headers
            = List.lookup name (dictOfItems resp.headers))
    ∧ (List.lookup "content-type" (proxyToApiResponse resp).headers
          = List.lookup "content-type" (dictOfItems resp.headers)
      ∧ List.lookup "content-type" (proxyToAiResponse resp).headers
          = List.lookup "content-type" (dictOfItems resp.headers)) := by
  obtain ⟨hs, hc, hh⟩ := proxyToApiResponse_parts resp
  have hlook : ∀ name, pyLower name ≠ "content-encoding" → pyLower name ≠ "content-length" →
      pyLower name ≠ "transfer-encoding" → pyLower name ≠ "connection" →
      List.lookup name (proxyToApiResponse resp).headers
          = List.lookup name (dictOfItems resp.headers)
      ∧ List.lookup name (proxyToAiResponse resp).headers
          = List.lookup name (dictOfItems resp.headers) := by
    intro name n1 n2 n3 n4
    constructor
    · rw [hh]; exact lookup_keepRespDict n1 n2 n3 n4 resp.headers
    · show List.lookup name (stripRespHeaders resp.headers) = _
      exact lookup_keepRespDict n1 n2 n3 n4 resp.headers
  refine ⟨⟨hs, rfl⟩, ⟨hc, rfl⟩, ?_, ?_, hlook, ?_⟩
  · intro p hp
    rw [hh] at hp
    exact (mem_keepRespDict hp).2
  · intro p hp
    exact (mem_keepRespDict hp).2
  · exact hlook "content-type" (by decide) (by decide) (by decide) (by decide)

/-- C5 witness at a concrete upstream response. -/
theorem claim5_witness :
    ((proxyToApiResponse sampleResp).status = 206
      ∧ (proxyToAiResponse sampleResp).status = 206)
    ∧ ((proxyToApiResponse sampleResp).content = "payload"
      ∧ (proxyToAiResponse sampleResp).content = "payload")
    ∧ (pyLower "x-request-id" ≠ "content-encoding")
    ∧ (List.lookup "x-request-id" (proxyToApiResponse sampleResp).headers
        = List.lookup "x-request-id" (dictOfItems sampleResp.headers))
    ∧ (List.lookup "content-type" (proxyToApiResponse sampleResp).headers
        = List.lookup "content-type" (dictOfItems sampleResp.headers))
    ∧ (∀ p ∈ (proxyToApiResponse sampleResp).headers, pyLower p.1 ≠ "content-encoding"
        ∧ pyLower p.1 ≠ "content-length" ∧ pyLower p.1 ≠ "transfer-encoding"
        ∧ pyLower p.1 ≠ "connection") := by
  have h := claim5_response_relay sampleResp
  exact ⟨h.1, h.2.1, by decide,
    (h.2.2.2.2.1 "x-request-id" (by decide) (by decide) (by decide) (by decide)).1,
    h.2.2.2.2.2.1, h.2.2.1⟩

/-! Claim C1 -/

/-- C1: for every forwarded request, on both routes, the outbound
header set is the inbound one with `Host` and `Authorization` removed
case-insensitively, with `X-User-Id` set to the identity's user_id on
every route, `X-User-Email` set to the identity's email on the API
route only (never injected on the AI route), and an outbound
`Authorization: Bearer <identity-token>` present exactly when the
Upstream Identity Provider returned a token — in particular no header
pair whose name lowercases to "authorization" other than that injected
one ever reaches the upstream, so the inbound credential never does.
The final two conjuncts tie this to the proxy handlers: every
successful phase-1 result carries exactly these headers for the
verified identity. -/
theorem claim1_outbound_header_policy (user : Claims) (inbound : List (String × String))
    (tok : Option String) (hin : ∀ p ∈ inbound, p.1 ≠ "X-User-Email") :
    List.lookup "X-User-Id" (apiOutboundHeaders user inbound tok)
        = some (dictGetD user "user_id" "")
    ∧ List.lookup "X-User-Id" (aiOutboundHeaders user inbound tok)
        = some (dictGetD user "user_id" "")
    ∧ List.lookup "X-User-Email" (apiOutboundHeaders user inbound tok)
        = some (dictGetD user "email" "")
    ∧ List.lookup "X-User-Email" (aiOutboundHeaders user inbound tok) = none
    ∧ (∀ p ∈ apiOutboundHeaders user inbound tok, pyLower p.1 = "authorization" →
        ∃ t, tok = some t ∧ p = ("Authorization", "Bearer " ++ t))
    ∧ (∀ p ∈ aiOutboundHeaders user inbound tok, pyLower p.1 = "authorization" →
        ∃ t, tok = some t ∧ p = ("Authorization", "Bearer " ++ t))
    ∧ (∀ p ∈ apiOutboundHeaders user inbound tok, pyLower p.1 ≠ "host")
    ∧ (∀ p ∈ aiOutboundHeaders user inbound tok, pyLower p.1 ≠ "host")
    ∧ (∀ t, tok = some t →
        List.lookup "Authorization" (apiOutboundHeaders user inbound tok)
            = some ("Bearer " ++ t)
        ∧ List.lookup "Authorization" (aiOutboundHeaders user inbound tok)
            = some ("Bearer " ++ t))
    ∧ (tok = none →
        (∀ p ∈ apiOutboundHeaders user inbound tok, pyLower p.1 ≠ "authorization")
        ∧ (∀ p ∈ aiOutboundHeaders user inbound tok, pyLower p.1 ≠ "authorization"))
    ∧ (∀ name, pyLower name ≠ "host" → pyLower name ≠ "authorization" →
        name ≠ "X-User-Id" → name ≠ "X-User-Email" → name ≠ "Authorization" →
        List.lookup name (apiOutboundHeaders user inbound tok)
            = List.lookup name (dictOfItems inbound)
        ∧ List.lookup name (aiOutboundHeaders user inbound tok)
            = List.lookup name (dictOfItems inbound))
    ∧ (∀ (cfg : GatewayConfig) (req : InboundRequest) (out : OutboundRequest),
        proxyToApiRequest cfg req = .ok out →
        ∃ u, verifyToken cfg (headerLookup req.headers "authorization") = .ok u
          ∧ out.headers = apiOutboundHeaders u req.headers
              (cfg.getAuthToken cfg.apiServiceUrl))
    ∧ (∀ (cfg : GatewayConfig) (req : InboundRequest) (out : OutboundRequest),
        proxyToAiRequest cfg req = .ok out →
        ∃ u, verifyToken cfg (headerLookup req.headers "authorization") = .ok u
          ∧ out.headers = aiOutboundHeaders u req.headers
              (cfg.getAuthToken cfg.aiServiceUrl)) := by
  refine ⟨api_lookup_userId user inbound tok, ai_lookup_userId user inbound tok,
    api_lookup_email user inbound tok, ai_lookup_email_none hin user tok,
    fun p hp hl => api_mem_authorization hp hl,
    fun p hp hl => ai_mem_authorization hp hl,
    fun p hp => api_mem_host hp, fun p hp => ai_mem_host hp,
    ?_, ?_, ?_, ?_, ?_⟩
  · intro t ht
    rw [ht]
    exact ⟨api_lookup_auth_token user inbound t, ai_lookup_auth_token user inbound t⟩
  · intro hnone
    constructor
    · intro p hp hl
      obtain ⟨t, ht, _⟩ := api_mem_authorization hp hl
      rw [hnone] at ht
      exact Option.noConfusion ht
    · intro p hp hl
      obtain ⟨t, ht, _⟩ := ai_mem_authorization hp hl
      rw [hnone] at ht
      exact Option.noConfusion ht
  · intro name hh ha h1 h2 h3
    exact ⟨api_lookup_other hh ha h1 h2 h3 user inbound tok,
      ai_lookup_other hh ha h1 h3 user inbound tok⟩
  · intro cfg req out h
    obtain ⟨u, hv, rfl⟩ := proxyToApiRequest_ok h
    exact ⟨u, hv, rfl⟩
  · intro cfg req out h
    obtain ⟨u, hv, rfl⟩ := proxyToAiRequest_ok h
    exact ⟨u, hv, rfl⟩

/-- C1 witness at concrete inputs. -/
theorem claim1_witness :
    (∀ p ∈ sampleInbound, p.1 ≠ "X-User-Email")
    ∧ List.lookup "X-User-Id" (apiOutboundHeaders sampleUser sampleInbound (some "idtok"))
        = some "alice123"
    ∧ List.lookup "X-User-Id" (aiOutboundHeaders sampleUser sampleInbound (some "idtok"))
        = some "alice123"
    ∧ List.lookup "X-User-Email" (apiOutboundHeaders sampleUser sampleInbound (some "idtok"))
        = some "alice@example.com"
    ∧ List.lookup "X-User-Email" (aiOutboundHeaders sampleUser sampleInbound (some "idtok"))
        = none
    ∧ List.lookup "Authorization" (apiOutboundHeaders sampleUser sampleInbound (some "idtok"))
        = some ("Bearer " ++ "idtok")
    ∧ (∀ p ∈ apiOutboundHeaders sampleUser sampleInbound (some "idtok"),
        pyLower p.1 ≠ "host")
    ∧ (∀ p ∈ apiOutboundHeaders sampleUser sampleInbound (some "idtok"),
        pyLower p.1 = "authorization" →
        ∃ t, (some "idtok" : Option String) = some t
          ∧ p = ("Authorization", "Bearer " ++ t))
    ∧ List.lookup "content-type" (apiOutboundHeaders sampleUser sampleInbound (some "idtok"))
        = List.lookup "content-type" (dictOfItems sampleInbound) := by
  have hin : ∀ p ∈ sampleInbound, p.1 ≠ "X-User-Email" := by decide
  have h := claim1_outbound_header_policy sampleUser sampleInbound (some "idtok") hin
  exact ⟨hin, h.1, h.2.1, h.2.2.1, h.2.2.2.1,
    (h.2.2.2.2.2.2.2.2.1 "idtok" rfl).1,
    h.2.2.2.2.2.2.1, h.2.2.2.2.1,
    (h.2.2.2.2.2.2.2.2.2.2.1 "content-type" (by decide) (by decide) (by decide)
      (by decide) (by decide)).1⟩

end GatewaySpec
